import Mathlib

/-!
Verification development for the android-tree-sitter parse-session
state machine (ts_parser.cc) and the UTF16String text buffer
(utf16str/UTF16String.h).

The parse-session side is a shallow embedding of the code in
src/main/cpp/ts_parser.cc, restricted to live (non-destroyed) sessions:
check_destroyed is false on every path modelled here, so getParser,
get_cancellation_flag and set_cancellation_flag never raise and the
mutex-guarded loads/stores of the slot pointer become plain reads and
writes of the `slot` field.  The heap cell `*flag` that the slot pointer
designates is inlined into the slot itself: `slot = none` models
`cancellation_flag == nullptr`, and `slot = some v` models an allocated
token whose current flag value is `v`.  The engine cancellation pointer
installed by ts_parser_set_cancellation_flag is tracked by the boolean
`engineFlag` (true exactly when the engine holds the current token).
-/

namespace ATS

/-- Error taxonomy of the binding layer: NullArgument models the
req_nnp precondition failure, InvalidState models throw_illegal_state,
OutOfRange and InvalidRange are the buffer index violations. -/
inductive Err
  | NullArgument
  | InvalidState
  | OutOfRange
  | InvalidRange
deriving DecidableEq, Repr

/-- State of a live TSParserInternal: `slot` is the contents of the
cancellation_flag atomic (none = nullptr, some v = allocated token whose
flag value is v); `engineFlag` records whether
ts_parser_set_cancellation_flag last installed the token (true) or
nullptr (false) on the engine. -/
structure TSParserInternal where
  slot : Option Nat
  engineFlag : Bool
deriving DecidableEq, Repr

/-- Result of TSParserInternal::begin_round: the returned bool, the
session state afterwards, and the exception raised (if any). -/
structure RoundStart where
  ok : Bool
  state : TSParserInternal
  err : Option Err
deriving DecidableEq, Repr

/-- TSParserInternal::begin_round (ts_parser.cc lines 60-78): if a
cancellation flag is already installed, throw_illegal_state and return
false, leaving all state untouched; otherwise allocate a fresh token,
store 0 into it, install it on the session slot and on the engine, and
return true. -/
def begin_round (s : TSParserInternal) : RoundStart :=
  match s.slot with
  | some _ => ⟨false, s, some Err.InvalidState⟩
  | none => ⟨true, ⟨some 0, true⟩, none⟩

/-- Result of TSParserInternal::end_round: the session state afterwards,
the pointer argument handed to free (none models free(nullptr)), and the
exception raised.  The source end_round (lines 80-88) has no failure
path on a live session, so `err` is always none: it frees whatever the
slot holds, stores nullptr into the slot, and clears the engine
cancellation pointer. -/
structure RoundEnd where
  state : TSParserInternal
  freed : Option Nat
  err : Option Err
deriving DecidableEq, Repr

/-- TSParserInternal::end_round (ts_parser.cc lines 80-88): read the
current flag, free it (free(nullptr) when the slot is empty), clear the
slot and clear the engine cancellation pointer.  No state check is
performed and no exception is ever raised on a live session. -/
def end_round (s : TSParserInternal) : RoundEnd :=
  ⟨⟨none, false⟩, s.slot, none⟩

/-- Body of Native_requestCancellation on a live, non-null session
(ts_parser.cc lines 250-265): load the flag under the mutex; if nullptr
return false and change nothing; otherwise store 1 through the pointer
(the token value becomes 1, a non-zero cancelled marker) and return
true.  The slot pointer itself and the engine pointer are untouched. -/
def requestCancellation (s : TSParserInternal) : Bool × TSParserInternal :=
  match s.slot with
  | none => (false, s)
  | some _ => (true, ⟨some 1, s.engineFlag⟩)

/-- Outcome of the JNI Native_requestCancellation entry point: either a
normal return (value and resulting session state), or `crash`, the
undefined behaviour of invoking get_cancellation_flag through a null
TSParserInternal pointer. -/
inductive CancelOutcome
  | ok : Bool → TSParserInternal → CancelOutcome
  | crash : CancelOutcome
deriving DecidableEq, Repr

/-- Java_..._TSParser_00024Native_requestCancellation (ts_parser.cc
lines 244-266): the function performs no req_nnp null check on the
parser handle; it immediately casts the jlong to TSParserInternal* and
calls get_cancellation_flag on it, so a zero handle is a null
dereference (crash).  On a non-null handle it behaves as
`requestCancellation` on the designated session. -/
def native_requestCancellation (parser : Int) (s : TSParserInternal) :
    CancelOutcome :=
  if parser = 0 then CancelOutcome.crash
  else
    let r := requestCancellation s
    CancelOutcome.ok r.1 r.2

/-!
UTF16String (utf16str/UTF16String.h).  The header declares the class
and documents every method; the method bodies (UTF16String.cpp) are not
among the sources, so the operations below are modelled from the spec,
over the storage the header fixes: a resizable sequence of bytes
(vector of jbyte) holding UTF-16 code units, two bytes per code unit.
Char indices and byte offsets are jint, modelled as Int; lengths are
modelled as Nat.
-/

/-- Modelled from the spec: splitting one 16-bit code unit into its two
storage bytes (the missing UTF16String.cpp fixes the byte order; the
choice made here is immaterial to the stated claims). -/
def encodeUnit (c : Int) : List Int := [c % 256, c / 256]

/-- Storage of a UTF16String: the vector of jbyte from the header, as a
list of bytes.  The code-unit sequence occupies two bytes each. -/
structure UTF16String where
  bytes : List Int
deriving DecidableEq, Repr

namespace UTF16String

/-- Modelled from the spec: UTF16String::byte_length, the byte-based
length, is the size of the byte vector (an O(1) query). -/
def byte_length (s : UTF16String) : Nat := s.bytes.length

/-- Modelled from the spec: UTF16String::length, the char-based length;
with two storage bytes per code unit it is half the byte count. -/
def length (s : UTF16String) : Nat := s.bytes.length / 2

/-- Modelled from the spec: UTF16String::to_cstring produces a newly
allocated copy of the raw UTF-16 bytes, with no encoding conversion. -/
def to_cstring (s : UTF16String) : List Int := s.bytes

/-- Modelled from the spec: the UTF16String() constructor creates an
empty buffer. -/
def mkEmpty : UTF16String := ⟨[]⟩

/-- Modelled from the spec: insert(c, index) inserts one code unit at
char index `index`, shifting subsequent content right; fails with
OutOfRange when the index is outside 0..length().  On failure the
buffer is unchanged. -/
def insert_char (s : UTF16String) (c : Int) (index : Int) :
    UTF16String × Option Err :=
  if index < 0 ∨ (length s : Int) < index then (s, some Err.OutOfRange)
  else
    (⟨s.bytes.take (2 * index.toNat) ++ encodeUnit c ++
        s.bytes.drop (2 * index.toNat)⟩, none)

/-- Modelled from the spec: insert(text, index) inserts a full host
string (given as its sequence of code units) at char index `index`;
fails with OutOfRange when the index is outside 0..length(). -/
def insert_str (s : UTF16String) (src : List Int) (index : Int) :
    UTF16String × Option Err :=
  if index < 0 ∨ (length s : Int) < index then (s, some Err.OutOfRange)
  else
    (⟨s.bytes.take (2 * index.toNat) ++ (src.map encodeUnit).flatten ++
        s.bytes.drop (2 * index.toNat)⟩, none)

/-- Modelled from the spec: append(c) is insert at length(). -/
def append_char (s : UTF16String) (c : Int) : UTF16String × Option Err :=
  insert_char s c (length s)

/-- Modelled from the spec: append(text) is insert at length(). -/
def append_str (s : UTF16String) (src : List Int) :
    UTF16String × Option Err :=
  insert_str s src (length s)

/-- Modelled from the spec: append(text, from, len) copies `len` code
units starting at `from` from the source, failing with OutOfRange when
from + len exceeds the source length (or a bound is negative). -/
def append_part (s : UTF16String) (src : List Int) (f l : Int) :
    UTF16String × Option Err :=
  if f < 0 ∨ l < 0 ∨ (src.length : Int) < f + l then (s, some Err.OutOfRange)
  else append_str s ((src.drop f.toNat).take l.toNat)

/-- Modelled from the spec: delete_chars(start, end) removes code units
in the char range from start (inclusive) to end (exclusive); fails with
InvalidRange when start > end or end > length() (or start is negative),
leaving the buffer unchanged. -/
def delete_chars (s : UTF16String) (start stop : Int) :
    UTF16String × Option Err :=
  if start < 0 ∨ stop < start ∨ (length s : Int) < stop then
    (s, some Err.InvalidRange)
  else
    (⟨s.bytes.take (2 * start.toNat) ++ s.bytes.drop (2 * stop.toNat)⟩, none)

/-- Modelled from the spec: delete_bytes(start, end) removes the byte
range from start to end; fails with InvalidRange when either offset is
odd, or start > end, or end > byte_length() (or start is negative),
leaving the buffer unchanged. -/
def delete_bytes (s : UTF16String) (start stop : Int) :
    UTF16String × Option Err :=
  if start % 2 ≠ 0 ∨ stop % 2 ≠ 0 ∨ start < 0 ∨ stop < start ∨
      (byte_length s : Int) < stop then
    (s, some Err.InvalidRange)
  else
    (⟨s.bytes.take start.toNat ++ s.bytes.drop stop.toNat⟩, none)

end UTF16String

/-- Encoding marker passed to the engine; parse always passes UTF16
(TSInputEncodingUTF16 in ts_parser.cc line 237). -/
inductive TSInputEncoding
  | UTF8
  | UTF16
deriving DecidableEq, Repr

/-- The opaque engine operation ts_parser_parse_string_encoding: from
the previous tree (none = nullptr), the source bytes, the byte length
and the encoding, to the resulting tree handle (0 = no tree). -/
def Engine : Type :=
  Option Int → List Int → Nat → TSInputEncoding → Int

/-- Outcome of the JNI Native_parse entry point: the returned tree
handle, the session state afterwards, the first exception raised (if
any), and the pointer handed to free by the embedded end_round call
(ghost observation; none when parse aborted before the round). -/
structure ParseResult where
  tree : Int
  state : TSParserInternal
  err : Option Err
  freed : Option Nat
deriving DecidableEq, Repr

/-- Java_..._TSParser_00024Native_parse (ts_parser.cc lines 213-242):
req_nnp validates the parser and string handles (modelled from the
spec, as for native_delete: a zero handle fails with NullArgument).
Then old_tree is nullptr when the tree handle is 0, begin_round is
called with its boolean result IGNORED, the engine runs on the raw
bytes of the source (to_cstring), its byte_length and the UTF16
encoding marker, end_round runs unconditionally, and the engine result
is returned.  `s` is the session the non-null parser handle designates
and `source` the UTF16String the non-null string handle designates. -/
def native_parse (eng : Engine) (parser tp sp : Int)
    (s : TSParserInternal) (source : UTF16String) : ParseResult :=
  if parser = 0 then ⟨0, s, some Err.NullArgument, none⟩
  else if sp = 0 then ⟨0, s, some Err.NullArgument, none⟩
  else
    let old_tree : Option Int := if tp = 0 then none else some tp
    let r := begin_round s
    let tree := eng old_tree source.to_cstring source.byte_length
      TSInputEncoding.UTF16
    let fin := end_round r.state
    ⟨tree, fin.state, r.err.orElse fun _ => fin.err, fin.freed⟩

/-- A concrete engine used to evaluate entry points at closed inputs:
it returns the tree handle 7 on every call. -/
def constEngine : Engine := fun _ _ _ _ => 7

/-- Java_..._TSParser_00024Native_delete (ts_parser.cc lines 131-138):
req_nnp validates the handle, then the object is deleted.  Modelled from
the spec: the body of req_nnp (ts_preconditions.h) is not in the
sources; the spec states that a null handle where one is required fails
with NullArgument, so req_nnp on handle 0 yields that error and aborts
the operation. -/
def native_delete (parser : Int) : Option Err :=
  if parser = 0 then some Err.NullArgument else none

/-- Encoding a list of code units yields two storage bytes each. -/
theorem length_flatten_encodeUnit (src : List Int) :
    ((src.map encodeUnit).flatten).length = 2 * src.length := by
  induction src with
  | nil => simp
  | cons a t ih =>
    simp only [List.map_cons, List.flatten_cons, List.length_append,
      List.length_cons, List.length_nil, encodeUnit, ih]
    omega

/-- insert_char preserves the two-bytes-per-unit size relation. -/
theorem inv_insert_char (s : UTF16String)
    (h : s.byte_length = 2 * s.length) (c i : Int) :
    (s.insert_char c i).1.byte_length = 2 * (s.insert_char c i).1.length := by
  simp only [UTF16String.byte_length, UTF16String.length] at h ⊢
  unfold UTF16String.insert_char
  split
  · exact h
  · simp only [UTF16String.byte_length, UTF16String.length, encodeUnit,
      List.length_append, List.length_take, List.length_drop,
      List.length_cons, List.length_nil]
    omega

/-- insert_str preserves the two-bytes-per-unit size relation. -/
theorem inv_insert_str (s : UTF16String)
    (h : s.byte_length = 2 * s.length) (src : List Int) (i : Int) :
    (s.insert_str src i).1.byte_length =
      2 * (s.insert_str src i).1.length := by
  simp only [UTF16String.byte_length, UTF16String.length] at h ⊢
  unfold UTF16String.insert_str
  split
  · exact h
  · simp only [UTF16String.byte_length, UTF16String.length,
      List.length_append, List.length_take, List.length_drop,
      length_flatten_encodeUnit]
    omega

/-- append_char preserves the two-bytes-per-unit size relation. -/
theorem inv_append_char (s : UTF16String)
    (h : s.byte_length = 2 * s.length) (c : Int) :
    (s.append_char c).1.byte_length = 2 * (s.append_char c).1.length := by
  unfold UTF16String.append_char
  exact inv_insert_char s h c _

/-- append_str preserves the two-bytes-per-unit size relation. -/
theorem inv_append_str (s : UTF16String)
    (h : s.byte_length = 2 * s.length) (src : List Int) :
    (s.append_str src).1.byte_length = 2 * (s.append_str src).1.length := by
  unfold UTF16String.append_str
  exact inv_insert_str s h src _

/-- append_part preserves the two-bytes-per-unit size relation. -/
theorem inv_append_part (s : UTF16String)
    (h : s.byte_length = 2 * s.length) (src : List Int) (f l : Int) :
    (s.append_part src f l).1.byte_length =
      2 * (s.append_part src f l).1.length := by
  unfold UTF16String.append_part
  split
  · exact h
  · exact inv_append_str s h _

/-- delete_chars preserves the two-bytes-per-unit size relation. -/
theorem inv_delete_chars (s : UTF16String)
    (h : s.byte_length = 2 * s.length) (a b : Int) :
    (s.delete_chars a b).1.byte_length =
      2 * (s.delete_chars a b).1.length := by
  simp only [UTF16String.byte_length, UTF16String.length] at h ⊢
  unfold UTF16String.delete_chars
  split
  · exact h
  · simp only [UTF16String.byte_length, UTF16String.length,
      List.length_append, List.length_take, List.length_drop]
    omega

/-- delete_bytes preserves the two-bytes-per-unit size relation: on a
valid range both endpoints are even, so an even count of bytes is
removed. -/
theorem inv_delete_bytes (s : UTF16String)
    (h : s.byte_length = 2 * s.length) (a b : Int) :
    (s.delete_bytes a b).1.byte_length =
      2 * (s.delete_bytes a b).1.length := by
  simp only [UTF16String.byte_length, UTF16String.length] at h ⊢
  unfold UTF16String.delete_bytes
  split
  · exact h
  · rename_i hg
    push_neg at hg
    simp only [UTF16String.byte_length, UTF16String.length] at hg
    simp only [UTF16String.byte_length, UTF16String.length,
      List.length_append, List.length_take, List.length_drop]
    omega

/-- C8: byte_length() = 2 * length() holds for the freshly constructed
empty buffer and is preserved by every mutation: insert of one code
unit, insert of a string, the three append forms, delete_chars and
delete_bytes (on failure the buffer is unchanged, so the relation also
survives every rejected call). -/
theorem byte_length_twice_length (s : UTF16String)
    (h : s.byte_length = 2 * s.length) :
    UTF16String.mkEmpty.byte_length = 2 * UTF16String.mkEmpty.length ∧
    (∀ c i, (s.insert_char c i).1.byte_length =
      2 * (s.insert_char c i).1.length) ∧
    (∀ src i, (s.insert_str src i).1.byte_length =
      2 * (s.insert_str src i).1.length) ∧
    (∀ c, (s.append_char c).1.byte_length =
      2 * (s.append_char c).1.length) ∧
    (∀ src, (s.append_str src).1.byte_length =
      2 * (s.append_str src).1.length) ∧
    (∀ src f l, (s.append_part src f l).1.byte_length =
      2 * (s.append_part src f l).1.length) ∧
    (∀ a b, (s.delete_chars a b).1.byte_length =
      2 * (s.delete_chars a b).1.length) ∧
    (∀ a b, (s.delete_bytes a b).1.byte_length =
      2 * (s.delete_bytes a b).1.length) :=
  ⟨rfl, inv_insert_char s h, inv_insert_str s h, inv_append_char s h,
    inv_append_str s h, inv_append_part s h, inv_delete_chars s h,
    inv_delete_bytes s h⟩

/-- C8 witness: a one-code-unit buffer, a successful insert and a
successful byte deletion. -/
theorem byte_length_twice_length_witness :
    UTF16String.byte_length ⟨[57, 0]⟩ = 2 * UTF16String.length ⟨[57, 0]⟩ ∧
    ((⟨[57, 0]⟩ : UTF16String).insert_char 88 1).1.byte_length =
      2 * ((⟨[57, 0]⟩ : UTF16String).insert_char 88 1).1.length ∧
    ((⟨[57, 0]⟩ : UTF16String).delete_bytes 0 2).1.byte_length =
      2 * ((⟨[57, 0]⟩ : UTF16String).delete_bytes 0 2).1.length :=
  ⟨by decide,
    (byte_length_twice_length ⟨[57, 0]⟩ (by decide)).2.1 88 1,
    (byte_length_twice_length ⟨[57, 0]⟩ (by decide)).2.2.2.2.2.2.2 0 2⟩

/-- C9: delete_bytes fails with InvalidRange whenever the start or the
end offset is odd, or start > end, or end > byte_length(), and on every
such failure the buffer is returned completely unchanged. -/
theorem delete_bytes_invalid_range (s : UTF16String) (a b : Int)
    (h : a % 2 ≠ 0 ∨ b % 2 ≠ 0 ∨ b < a ∨ (s.byte_length : Int) < b) :
    s.delete_bytes a b = (s, some Err.InvalidRange) := by
  have hc : a % 2 ≠ 0 ∨ b % 2 ≠ 0 ∨ a < 0 ∨ b < a ∨
      ((s.byte_length : Int) < b) := by tauto
  unfold UTF16String.delete_bytes
  rw [if_pos hc]

/-- C9 witness: an odd start offset on a one-code-unit buffer. -/
theorem delete_bytes_invalid_range_witness :
    UTF16String.delete_bytes ⟨[0, 0]⟩ 1 2 = (⟨[0, 0]⟩, some Err.InvalidRange) :=
  delete_bytes_invalid_range ⟨[0, 0]⟩ 1 2 (Or.inl (by decide))

/-- C1: a second begin_round on a PARSING session does fail with
InvalidState and return false without touching the installed token, but
the claim fails for parse(): invoked on a session already in PARSING,
parse ignores the false result of begin_round, runs the engine anyway,
and its unconditional end_round frees the ACTIVE round token (freed =
some 0, the token the concurrent round still uses) and clears it from
the session and the engine (final slot = none), so the active round IS
disturbed.  This closed evaluation exhibits the divergence. -/
theorem parse_while_parsing_frees_active_token :
    begin_round ⟨some 0, true⟩ = ⟨false, ⟨some 0, true⟩, some Err.InvalidState⟩ ∧
    (native_parse constEngine 1 0 1 ⟨some 0, true⟩ UTF16String.mkEmpty).err =
      some Err.InvalidState ∧
    (native_parse constEngine 1 0 1 ⟨some 0, true⟩ UTF16String.mkEmpty).freed =
      some 0 ∧
    (native_parse constEngine 1 0 1 ⟨some 0, true⟩
      UTF16String.mkEmpty).state = ⟨none, false⟩ := by
  decide

/-- C2 counterexample: on an IDLE session (empty slot), end_round does
NOT fail with InvalidState: it raises no error at all (err = none), it
frees nothing (free(nullptr)), and it silently succeeds, contradicting
the claim that it fails. -/
theorem end_round_idle_raises_no_error :
    (end_round ⟨none, false⟩).err ≠ some Err.InvalidState ∧
    end_round ⟨none, false⟩ = ⟨⟨none, false⟩, none, none⟩ := by
  decide

/-- C2 amended: for every session in the IDLE state, end_round without
a prior begin_round silently succeeds: it performs no state check,
raises no error, frees nothing, and leaves the session IDLE with the
engine cancellation pointer cleared. -/
theorem end_round_idle_silent (s : TSParserInternal) (h : s.slot = none) :
    end_round s = ⟨⟨none, false⟩, none, none⟩ := by
  simp [end_round, h]

/-- C2 amended, witness at a concrete IDLE session. -/
theorem end_round_idle_silent_witness :
    end_round ⟨none, true⟩ = ⟨⟨none, false⟩, none, none⟩ :=
  end_round_idle_silent ⟨none, true⟩ rfl

/-- C3: requestCancellation returns true exactly when a token is
installed (PARSING); in that case it writes the non-zero cancelled
value 1 into the token and touches nothing else; with no token
installed it returns false and changes no state. -/
theorem requestCancellation_exactly_when_parsing (s : TSParserInternal) :
    ((requestCancellation s).1 = true ↔ s.slot.isSome = true) ∧
    (s.slot = none → requestCancellation s = (false, s)) ∧
    (∀ v, s.slot = some v →
      requestCancellation s = (true, ⟨some 1, s.engineFlag⟩) ∧
      ∃ w, (requestCancellation s).2.slot = some w ∧ w ≠ 0) := by
  rcases s with ⟨slot, ef⟩
  cases slot <;> simp [requestCancellation]

/-- C3 witness: concrete PARSING and IDLE sessions. -/
theorem requestCancellation_exactly_when_parsing_witness :
    requestCancellation ⟨some 0, true⟩ = (true, ⟨some 1, true⟩) ∧
    requestCancellation ⟨none, false⟩ = (false, ⟨none, false⟩) :=
  ⟨((requestCancellation_exactly_when_parsing ⟨some 0, true⟩).2.2 0 rfl).1,
    (requestCancellation_exactly_when_parsing ⟨none, false⟩).2.1 rfl⟩

/-- C10: on a PARSING session every requestCancellation call returns
true and stores the cancelled value 1; a repeated call returns true
again and leaves the session state exactly as after the first call
(idempotence). -/
theorem requestCancellation_idempotent (s : TSParserInternal) (v : Nat)
    (h : s.slot = some v) :
    (requestCancellation s).1 = true ∧
    (requestCancellation s).2.slot = some 1 ∧
    requestCancellation (requestCancellation s).2 =
      (true, (requestCancellation s).2) := by
  rcases s with ⟨slot, ef⟩
  cases slot with
  | none => cases h
  | some w => simp [requestCancellation]

/-- C10 witness: a session mid-round whose token was already set. -/
theorem requestCancellation_idempotent_witness :
    (requestCancellation ⟨some 1, true⟩).1 = true ∧
    (requestCancellation ⟨some 1, true⟩).2.slot = some 1 ∧
    requestCancellation (requestCancellation ⟨some 1, true⟩).2 =
      (true, (requestCancellation ⟨some 1, true⟩).2) :=
  requestCancellation_idempotent ⟨some 1, true⟩ 1 rfl

/-- C4: over one round started from IDLE the token slot goes
None to Some to None exactly once: begin_round installs a fresh token
with flag 0 on the session slot and the engine and reports success;
end_round, from any mid-round state (any flag value, so regardless of
whether the round was cancelled) and for any engine outcome, frees
exactly the installed token, clears the slot and the engine pointer; a
full parse from IDLE therefore ends with the session back in IDLE
(slot empty, engine pointer cleared, the round token freed, no error)
and a new begin_round succeeds. -/
theorem round_token_lifecycle (s : TSParserInternal) (h : s.slot = none)
    (eng : Engine) (parser tp sp : Int) (hp : parser ≠ 0) (hsp : sp ≠ 0)
    (source : UTF16String) :
    begin_round s = ⟨true, ⟨some 0, true⟩, none⟩ ∧
    (∀ v b, end_round ⟨some v, b⟩ = ⟨⟨none, false⟩, some v, none⟩) ∧
    (native_parse eng parser tp sp s source).state = ⟨none, false⟩ ∧
    (native_parse eng parser tp sp s source).freed = some 0 ∧
    (native_parse eng parser tp sp s source).err = none ∧
    (begin_round (native_parse eng parser tp sp s source).state).ok = true := by
  rcases s with ⟨slot, ef⟩
  cases h
  simp [begin_round, end_round, native_parse, hp, hsp, Option.orElse]

/-- C4 witness: a concrete round from a concrete IDLE session. -/
theorem round_token_lifecycle_witness :
    begin_round ⟨none, false⟩ = ⟨true, ⟨some 0, true⟩, none⟩ ∧
    (∀ v b, end_round ⟨some v, b⟩ = ⟨⟨none, false⟩, some v, none⟩) ∧
    (native_parse constEngine 1 0 1 ⟨none, false⟩
      UTF16String.mkEmpty).state = ⟨none, false⟩ ∧
    (native_parse constEngine 1 0 1 ⟨none, false⟩
      UTF16String.mkEmpty).freed = some 0 ∧
    (native_parse constEngine 1 0 1 ⟨none, false⟩
      UTF16String.mkEmpty).err = none ∧
    (begin_round (native_parse constEngine 1 0 1 ⟨none, false⟩
      UTF16String.mkEmpty).state).ok = true :=
  round_token_lifecycle ⟨none, false⟩ rfl constEngine 1 0 1
    (by decide) (by decide) UTF16String.mkEmpty

/-- C5: with non-null parser and string handles, parse returns exactly
the engine result on exactly these arguments: the raw UTF-16 bytes of
the buffer (to_cstring is the byte sequence itself), the buffer byte
length, the UTF16 encoding marker, and the previous tree, which is the
null engine tree when the caller passes handle 0; when the session was
IDLE no exception is raised, so an engine result of 0 (cancelled or
timed out) is returned as the absent tree, not as an error. -/
theorem parse_delegates_exactly (eng : Engine) (parser tp sp : Int)
    (hp : parser ≠ 0) (hsp : sp ≠ 0) (s : TSParserInternal)
    (source : UTF16String) :
    (native_parse eng parser tp sp s source).tree =
      eng (if tp = 0 then none else some tp) source.to_cstring
        source.byte_length TSInputEncoding.UTF16 ∧
    source.to_cstring = source.bytes ∧
    source.byte_length = source.bytes.length ∧
    (tp = 0 → (native_parse eng parser tp sp s source).tree =
      eng none source.bytes source.bytes.length TSInputEncoding.UTF16) ∧
    (s.slot = none → (native_parse eng parser tp sp s source).err = none) := by
  refine ⟨?_, rfl, rfl, ?_, ?_⟩
  · simp [native_parse, hp, hsp]
  · intro h0
    simp [native_parse, hp, hsp, h0, UTF16String.to_cstring,
      UTF16String.byte_length]
  · intro hidle
    simp [native_parse, hp, hsp, begin_round, end_round, hidle,
      Option.orElse]

/-- C5 witness: concrete engine, handles, session and buffer. -/
theorem parse_delegates_exactly_witness :
    (native_parse constEngine 1 0 1 ⟨none, false⟩
      UTF16String.mkEmpty).tree =
      constEngine (if (0 : Int) = 0 then none else some 0)
        UTF16String.mkEmpty.to_cstring UTF16String.mkEmpty.byte_length
        TSInputEncoding.UTF16 ∧
    UTF16String.mkEmpty.to_cstring = UTF16String.mkEmpty.bytes ∧
    UTF16String.mkEmpty.byte_length = UTF16String.mkEmpty.bytes.length ∧
    ((0 : Int) = 0 → (native_parse constEngine 1 0 1 ⟨none, false⟩
      UTF16String.mkEmpty).tree =
      constEngine none UTF16String.mkEmpty.bytes
        UTF16String.mkEmpty.bytes.length TSInputEncoding.UTF16) ∧
    (TSParserInternal.slot ⟨none, false⟩ = none →
      (native_parse constEngine 1 0 1 ⟨none, false⟩
        UTF16String.mkEmpty).err = none) :=
  parse_delegates_exactly constEngine 1 0 1 (by decide) (by decide)
    ⟨none, false⟩ UTF16String.mkEmpty

/-- C6: the outbound surface does NOT uniformly validate handle
arguments: requestCancellation performs no null check and dereferences
a zero parser handle (undefined behaviour, modelled as crash), in both
possible flag states, while sibling operations such as delete and
parse do fail with NullArgument on a zero handle.  This closed
evaluation exhibits the divergence on requestCancellation. -/
theorem requestCancellation_null_handle_unchecked :
    native_requestCancellation 0 ⟨none, false⟩ = CancelOutcome.crash ∧
    native_requestCancellation 0 ⟨some 0, true⟩ = CancelOutcome.crash ∧
    native_delete 0 = some Err.NullArgument ∧
    (native_parse constEngine 0 0 1 ⟨none, false⟩
      UTF16String.mkEmpty).err = some Err.NullArgument ∧
    (native_parse constEngine 1 0 0 ⟨none, false⟩
      UTF16String.mkEmpty).err = some Err.NullArgument := by
  decide

end ATS
